import Mathlib

/-!
Verification of the tool-invocation layer of the `vscode-go` repository.

The development shallowly embeds the relevant TypeScript sources:
  * `src/goSymbol.ts`   — `callGoSymbols`, `getWorkspaceSymbols`
  * `src/goOutline.ts`  — `runGoOutline`, `convertToCodeSymbols`
  * `src/goTest.ts`     — `testAtCursor`, `testCurrentPackage`,
                          `testWorkspace`, `testCurrentFile`, `testPrevious`
External processes are modelled by an oracle mapping the argument list to the
observed `execFile` callback data; the asynchronous timer / cancellation /
exit interleaving is modelled by an explicit event machine.
-/

namespace VscodeGo

/-! ## String primitives (models of the JavaScript string operations) -/

/-- Model of JavaScript `String.prototype.startsWith`. -/
def strStartsWith (s p : String) : Bool :=
  p.data.isPrefixOf s.data

/-- Model of JavaScript `String.prototype.endsWith`. -/
def strEndsWith (s p : String) : Bool :=
  p.data.isSuffixOf s.data

/-- Model of JavaScript `Array.prototype.join(',')` on string arrays. -/
def joinComma (xs : List String) : String :=
  String.intercalate "," xs

/-! ## JSON values and a model of the `JSON.parse` builtin

The sources decode tool stdout with the platform builtin `JSON.parse`
(`goOutline.ts` line 123, `goSymbol.ts` line 146).  We model it with an
executable recursive-descent parser over the character list of the input.
Restriction kept explicit: numbers are integers (no fraction/exponent) and
string escapes cover the common single-character escapes; all inputs that
appear in the claims are inside this subset.  A `none` result models the
`SyntaxError` exception `JSON.parse` throws on malformed input. -/

inductive Json where
  | null : Json
  | bool (b : Bool) : Json
  | num (n : Int) : Json
  | str (s : String) : Json
  | arr (elems : List Json) : Json
  | obj (fields : List (String × Json)) : Json

/-- The `{` character, by code point. -/
def braceOpen : Char := Char.ofNat 123

/-- The `}` character, by code point. -/
def braceClose : Char := Char.ofNat 125

def isJsonWs (c : Char) : Bool :=
  c = ' ' ∨ c = '\n' ∨ c = '\t' ∨ c = '\r'

def skipWs (cs : List Char) : List Char :=
  cs.dropWhile isJsonWs

/-- Single-character string escapes recognised by the model. -/
def escCharOf (c : Char) : Option Char :=
  if c = '"' then some '"'
  else if c = '\\' then some '\\'
  else if c = '/' then some '/'
  else if c = 'n' then some '\n'
  else if c = 't' then some '\t'
  else if c = 'r' then some '\r'
  else none

/-- Parse the body of a JSON string (after the opening quote).  The boolean
flag records a pending backslash escape. -/
def parseStrList : List Char → Bool → Option (List Char × List Char)
  | [], _ => none
  | c :: rest, true =>
    match escCharOf c with
    | none => none
    | some ch => (parseStrList rest false).map (fun p => (ch :: p.1, p.2))
  | c :: rest, false =>
    if c = '"' then some ([], rest)
    else if c = '\\' then parseStrList rest true
    else (parseStrList rest false).map (fun p => (c :: p.1, p.2))

def stripPfxCL : List Char → List Char → Option (List Char)
  | [], cs => some cs
  | _ :: _, [] => none
  | p :: ps, c :: cs => if c = p then stripPfxCL ps cs else none

def digitsToNat (ds : List Char) : Nat :=
  ds.foldl (fun a c => a * 10 + (c.toNat - 48)) 0

def parseNum (cs : List Char) : Option (Json × List Char) :=
  match cs with
  | '-' :: rest =>
    let ds := rest.takeWhile Char.isDigit
    if ds = [] then none
    else some (Json.num (-(digitsToNat ds : Int)), rest.drop ds.length)
  | _ =>
    let ds := cs.takeWhile Char.isDigit
    if ds = [] then none
    else some (Json.num (digitsToNat ds : Int), cs.drop ds.length)

mutual

def parseVal : Nat → List Char → Option (Json × List Char)
  | 0, _ => none
  | fuel + 1, cs0 =>
    let cs := skipWs cs0
    match stripPfxCL "null".data cs with
    | some r => some (Json.null, r)
    | none =>
    match stripPfxCL "true".data cs with
    | some r => some (Json.bool true, r)
    | none =>
    match stripPfxCL "false".data cs with
    | some r => some (Json.bool false, r)
    | none =>
    match cs with
    | [] => none
    | c :: rest =>
      if c = '"' then
        (parseStrList rest false).map (fun p => (Json.str (String.mk p.1), p.2))
      else if c = '[' then
        match skipWs rest with
        | ']' :: r2 => some (Json.arr [], r2)
        | r => parseArrLoop fuel r []
      else if c = braceOpen then
        let r := skipWs rest
        match r with
        | c2 :: r2 =>
          if c2 = braceClose then some (Json.obj [], r2)
          else parseObjLoop fuel r []
        | [] => none
      else if c = '-' ∨ c.isDigit then parseNum cs
      else none

def parseArrLoop : Nat → List Char → List Json → Option (Json × List Char)
  | 0, _, _ => none
  | fuel + 1, cs, acc =>
    match parseVal fuel cs with
    | none => none
    | some (v, r) =>
      match skipWs r with
      | ',' :: r2 => parseArrLoop fuel r2 (acc ++ [v])
      | ']' :: r2 => some (Json.arr (acc ++ [v]), r2)
      | _ => none

def parseObjLoop : Nat → List Char → List (String × Json) → Option (Json × List Char)
  | 0, _, _ => none
  | fuel + 1, cs, acc =>
    match skipWs cs with
    | c :: rest =>
      if c = '"' then
        match parseStrList rest false with
        | none => none
        | some (key, r) =>
          match skipWs r with
          | ':' :: r2 =>
            match parseVal fuel r2 with
            | none => none
            | some (v, r3) =>
              match skipWs r3 with
              | c2 :: r4 =>
                if c2 = ',' then
                  parseObjLoop fuel r4 (acc ++ [(String.mk key, v)])
                else if c2 = braceClose then
                  some (Json.obj (acc ++ [(String.mk key, v)]), r4)
                else none
              | [] => none
          | _ => none
      else none
    | [] => none

end

/-- Model of the `JSON.parse` builtin: parse the whole input, allowing
trailing whitespace only; `none` models the thrown `SyntaxError`. -/
def parseJson (s : String) : Option Json :=
  match parseVal (s.data.length + 1) s.data with
  | some (v, r) => if skipWs r = [] then some v else none
  | none => none

/-! ## Process invocation model

`cp.execFile` invokes its callback with `(err, stdout, stderr)`.  We model the
external process deterministically as an *oracle*: a function from the
argument list to the observed callback data.  `ExecError` models the opaque
`Error` object Node passes to the callback (`err.code` for OS errors such as
`ENOENT`, `err.message` for the message text; the message is NOT in general
the stderr text, which is why `goSymbol.ts` line 141 constructs
`new Error(stderr)` explicitly before rejecting). -/

structure ExecError where
  code : Option String
  message : String
  deriving DecidableEq, Repr

structure ExecOutcome where
  err : Option ExecError
  stdout : String
  stderr : String
  deriving DecidableEq, Repr

/-- Deterministic model of the external tool: callback data per argument
list. -/
def Oracle : Type := List String → ExecOutcome

/-- A value a promise is rejected with: an `Error` object, carrying its
`message` and optional OS `code`. -/
structure RejVal where
  message : String
  code : Option String
  deriving DecidableEq, Repr

/-- The rejection value of `reject(err)` for the callback error `e`. -/
def RejVal.ofErr (e : ExecError) : RejVal :=
  { message := e.message, code := e.code }

/-- Observable side effects of the invocation layer. -/
inductive TraceEv where
  | exec (args : List String) : TraceEv
  | promptMissing (tool : String) : TraceEv
  | promptUpdating (tool : String) : TraceEv
  deriving DecidableEq, Repr

/-! ### `goSymbol.ts` — `callGoSymbols` (lines 120–154), normal-exit path

The timer / cancellation interleaving is modelled separately by the event
machine below; `callGoSymbols` here follows the `execFile` callback of
lines 138–148, which runs when the process exits before timer and
cancellation. -/

/-- How a single invocation settles. `raised` records an exception thrown
inside the `execFile` callback: it is NOT caught by the promise executor
(the callback runs asynchronously), so the promise never settles and the
exception escapes as an uncaught fault. -/
inductive CallResult where
  | resolved (v : Json) : CallResult
  | rejected (r : RejVal) : CallResult
  | raised : CallResult

/-- The sentinel checked by `goSymbol.ts` lines 113 and 140. -/
def flagIgnoreMsg : String := "flag provided but not defined: -ignore"

/-- Shallow embedding of the `execFile` callback of `callGoSymbols`
(`goSymbol.ts` lines 138–148).  The JavaScript guard
`err && stderr && stderr.startsWith(...)` requires a truthy (non-empty)
`stderr`; `JSON.parse` on the success path is NOT wrapped in try/catch, so a
parse failure is an uncaught throw (`raised`). -/
def callGoSymbols (oracle : Oracle) (args : List String) :
    CallResult × List TraceEv :=
  let o := oracle args
  let r :=
    match o.err with
    | some e =>
      if o.stderr ≠ "" ∧ strStartsWith o.stderr flagIgnoreMsg then
        CallResult.rejected { message := o.stderr, code := none }
      else
        CallResult.rejected (RejVal.ofErr e)
    | none =>
      match parseJson o.stdout with
      | some v => CallResult.resolved v
      | none => CallResult.raised
  (r, [TraceEv.exec args])

/-! ### `goSymbol.ts` — `getWorkspaceSymbols` (lines 82–118) -/

/-- The configuration read from `goConfig['gotoSymbol']`. -/
structure GotoSymbolConfig where
  ignoreFolders : List String
  includeGoroot : Bool
  deriving DecidableEq, Repr

/-- Outcome of `getWorkspaceSymbols`: `value none` is the `undefined`
produced when the `.catch` handler returns without a value; `fuelOut` marks
exhaustion of the recursion fuel (the source recursion has no such bound:
reaching `fuelOut` means the source would still be retrying). -/
inductive GWSResult where
  | value (v : Option (List Json)) : GWSResult
  | raised : GWSResult
  | fuelOut : GWSResult

/-- JavaScript `[].concat(...results)`: arrays are spliced, other values
appended. -/
def jsConcat (vs : List Json) : List Json :=
  (vs.map (fun v => match v with | Json.arr xs => xs | x => [x])).flatten

/-- First rejection among the settled calls, as `Promise.all` delivers one
rejection to `.catch` (determinized to list order). -/
def firstRejection : List CallResult → Option RejVal
  | [] => none
  | CallResult.rejected r :: _ => some r
  | _ :: rest => firstRejection rest

def anyRaised (rs : List CallResult) : Bool :=
  rs.any (fun r => match r with | CallResult.raised => true | _ => false)

def resolvedValues (rs : List CallResult) : List Json :=
  rs.foldr (fun r acc => match r with
    | CallResult.resolved v => v :: acc
    | _ => acc) []

/-- Shallow embedding of `getWorkspaceSymbols` (`goSymbol.ts` lines 82–118).
`goroot` models `process.env['GOROOT']`.  The recursion of line 115 (retry
after `promptForUpdatingTool`) is bounded by `fuel`. -/
def getWorkspaceSymbols (fuel : Nat) (oracle : Oracle) (goroot : String)
    (cfg : GotoSymbolConfig) (workspacePath query : String)
    (ignoreFolderFeatureOn : Bool) : GWSResult × List TraceEv :=
  match fuel with
  | 0 => (GWSResult.fuelOut, [])
  | fuel + 1 =>
    let baseArgs :=
      if ignoreFolderFeatureOn ∧ cfg.ignoreFolders ≠ [] then
        ["-ignore", joinComma cfg.ignoreFolders]
      else []
    let call1 := callGoSymbols oracle (baseArgs ++ [workspacePath, query])
    let calls :=
      if cfg.includeGoroot then
        [call1, callGoSymbols oracle (baseArgs ++ [goroot, query])]
      else [call1]
    let results := calls.map Prod.fst
    let trace0 := (calls.map Prod.snd).flatten
    if anyRaised results then (GWSResult.raised, trace0)
    else
      match firstRejection results with
      | none => (GWSResult.value (some (jsConcat (resolvedValues results))), trace0)
      | some err =>
        let missTrace :=
          if err.code = some "ENOENT" then [TraceEv.promptMissing "go-symbols"] else []
        if strStartsWith err.message flagIgnoreMsg then
          let (r, t) :=
            getWorkspaceSymbols fuel oracle goroot cfg workspacePath query false
          (r, trace0 ++ missTrace ++ [TraceEv.promptUpdating "go-symbols"] ++ t)
        else
          (GWSResult.value none, trace0 ++ missTrace)

/-! ### `goOutline.ts` — `runGoOutline` (lines 76–137), normal-exit path -/

inductive GoOutlineImportsOptions where
  | include_ : GoOutlineImportsOptions
  | exclude : GoOutlineImportsOptions
  | only : GoOutlineImportsOptions
  deriving DecidableEq, Repr

/-- The fields of `GoOutlineOptions` that drive the invocation; the document
is kept abstract (`docPresent` models `options.document` being set, the only
use the flag construction and retry adjustment make of it). -/
structure GoOutlineOptionsM where
  fileName : String
  importsOption : GoOutlineImportsOptions
  docPresent : Bool
  deriving DecidableEq, Repr

/-- Flag construction of `runGoOutline` (`goOutline.ts` lines 82–88). -/
def gooutlineFlags (opts : GoOutlineOptionsM) : List String :=
  ["-f", opts.fileName]
    ++ (if opts.importsOption = GoOutlineImportsOptions.only then ["-imports-only"] else [])
    ++ (if opts.docPresent then ["-modified"] else [])

/-- Outcome of `runGoOutline`: `resolved none` is `resolve(null)`
(line 120); `fuelOut` marks exhaustion of the recursion fuel for the
retry recursion of line 115, which the source does not bound. -/
inductive RGOResult where
  | resolved (v : Option Json) : RGOResult
  | rejected (r : RejVal) : RGOResult
  | fuelOut : RGOResult

/-- The sentinel prefix checked by `goOutline.ts` line 106. -/
def flagNotDefinedMsg : String := "flag provided but not defined: "

/-- The rejection produced when `JSON.parse` throws inside the `try` block
of the callback and the `catch` rejects with the exception (`goOutline.ts`
lines 125–127). -/
def jsonSyntaxError : RejVal := { message := "SyntaxError: Unexpected token in JSON", code := none }

/-- Shallow embedding of `runGoOutline` (`goOutline.ts` lines 76–137): the
`execFile` callback of lines 100–128 for a process that exits before timer
and cancellation.  Note the source prompts for a missing tool on `ENOENT`
*without returning*, then checks the flag sentinel on `stderr` (independent
of `err`), adjusts the options that produced the unsupported flag, and
recurses; a plain error resolves `null`; the whole callback body is wrapped
in `try`/`catch` with `catch` rejecting. -/
def runGoOutline (fuel : Nat) (oracle : Oracle) (opts : GoOutlineOptionsM) :
    RGOResult × List TraceEv :=
  match fuel with
  | 0 => (RGOResult.fuelOut, [])
  | fuel + 1 =>
    let flags := gooutlineFlags opts
    let o := oracle flags
    let missTrace :=
      match o.err with
      | some e => if e.code = some "ENOENT" then [TraceEv.promptMissing "go-outline"] else []
      | none => []
    let trace0 := [TraceEv.exec flags] ++ missTrace
    if o.stderr ≠ "" ∧ strStartsWith o.stderr flagNotDefinedMsg then
      let opts' : GoOutlineOptionsM :=
        { opts with
          importsOption :=
            if strStartsWith o.stderr (flagNotDefinedMsg ++ "-imports-only") then
              GoOutlineImportsOptions.include_
            else opts.importsOption,
          docPresent :=
            if strStartsWith o.stderr (flagNotDefinedMsg ++ "-modified") then
              false
            else opts.docPresent }
      let (r, t) := runGoOutline fuel oracle opts'
      (r, trace0 ++ [TraceEv.promptUpdating "go-outline"] ++ t)
    else if o.err.isSome then
      (RGOResult.resolved none, trace0)
    else
      match parseJson o.stdout with
      | some v => (RGOResult.resolved (some v), trace0)
      | none => (RGOResult.rejected jsonSyntaxError, trace0)

/-! ## Event machine: timer, cancellation and exit interleavings

`callGoSymbols` (`goSymbol.ts` lines 120–154), `runGoOutline`
(`goOutline.ts` lines 90–136) and `provideTypeDefinition`
(`goTypeDefinition.ts` lines 56–144) all share the same skeleton:

  * `token.onCancellationRequested(() => { clearTimeout(t); killTree(p.pid); })`
  * `processTimeout = setTimeout(() => { killTree(p.pid); reject(timeoutErr); }, ...)`
  * the `execFile` callback starts with `clearTimeout(processTimeout)` and
    then settles according to the per-file exit handler.

We model one invocation as a state machine over the three event kinds,
parameterised by the exit handler.  Promise semantics: only the first
`resolve`/`reject` settles; later attempts are no-ops. -/

/-- What the `execFile` callback does once it runs (after `clearTimeout`). -/
inductive ExitAction where
  | res (v : Option Json) : ExitAction
  | rej (r : RejVal) : ExitAction
  | throwUncaught : ExitAction
  | retryDefer : ExitAction

/-- Exit handler of `callGoSymbols` (`goSymbol.ts` lines 140–147). -/
def goSymbolExit (o : ExecOutcome) : ExitAction :=
  match o.err with
  | some e =>
    if o.stderr ≠ "" ∧ strStartsWith o.stderr flagIgnoreMsg then
      ExitAction.rej { message := o.stderr, code := none }
    else
      ExitAction.rej (RejVal.ofErr e)
  | none =>
    match parseJson o.stdout with
    | some v => ExitAction.res (some v)
    | none => ExitAction.throwUncaught

/-- Exit handler of `runGoOutline` (`goOutline.ts` lines 102–127): the flag
sentinel defers settlement to the recursive retry; other errors resolve
`null`; a decode failure is caught and rejected. -/
def goOutlineExit (o : ExecOutcome) : ExitAction :=
  if o.stderr ≠ "" ∧ strStartsWith o.stderr flagNotDefinedMsg then
    ExitAction.retryDefer
  else if o.err.isSome then
    ExitAction.res none
  else
    match parseJson o.stdout with
    | some v => ExitAction.res (some v)
    | none => ExitAction.rej jsonSyntaxError

/-- How the promise of one invocation is settled. -/
inductive SettleVal where
  | res (v : Option Json) : SettleVal
  | rej (r : RejVal) : SettleVal

/-- Observable state of one invocation.

`Modelled from the spec:` `util.killTree` (not under `src/`) "terminating a
spawned process and all of its descendant processes"; we record its effect
as `procTreeAlive := false` and count its invocations in `killCount`. -/
structure MachState where
  settled : Option SettleVal
  timerActive : Bool
  timerFired : Bool
  killCount : Nat
  procTreeAlive : Bool
  uncaught : Bool

def MachState.init : MachState :=
  { settled := none, timerActive := true, timerFired := false,
    killCount := 0, procTreeAlive := true, uncaught := false }

/-- Promise settlement: only the first `resolve`/`reject` takes effect. -/
def trySettle (s : MachState) (v : SettleVal) : MachState :=
  if s.settled.isSome then s else { s with settled := some v }

/-- The three asynchronous events racing in one invocation. -/
inductive Ev where
  | exit (o : ExecOutcome) : Ev
  | timerFire : Ev
  | cancelFire : Ev

/-- One event step of the invocation machine: the exit callback first runs
`clearTimeout` and then the per-file exit handler; the timer handler (only
runnable while the timer is pending) kills the tree and rejects with the
timeout error; the cancellation handler clears the timer and kills the tree
— and settles nothing. -/
def step (onExit : ExecOutcome → ExitAction) (timeoutRej : RejVal)
    (s : MachState) : Ev → MachState
  | Ev.exit o =>
    let s := { s with timerActive := false }
    match onExit o with
    | ExitAction.res v => trySettle s (SettleVal.res v)
    | ExitAction.rej r => trySettle s (SettleVal.rej r)
    | ExitAction.throwUncaught => { s with uncaught := true }
    | ExitAction.retryDefer => s
  | Ev.timerFire =>
    if s.timerActive then
      trySettle
        { s with timerActive := false, timerFired := true,
                 killCount := s.killCount + 1, procTreeAlive := false }
        (SettleVal.rej timeoutRej)
    else s
  | Ev.cancelFire =>
    { s with timerActive := false, killCount := s.killCount + 1,
             procTreeAlive := false }

/-- Run the invocation machine over an event sequence. -/
def runMach (onExit : ExecOutcome → ExitAction) (timeoutRej : RejVal)
    (evs : List Ev) : MachState :=
  evs.foldl (step onExit timeoutRej) MachState.init

/-- The timeout rejection of `callGoSymbols` (`goSymbol.ts` line 151). -/
def goSymbolTimeoutRej : RejVal :=
  { message := "Timeout executing tool - go-symbols", code := none }

/-- The timeout rejection of `runGoOutline` (`goOutline.ts` line 134). -/
def goOutlineTimeoutRej : RejVal :=
  { message := "Timeout executing tool - gooutline", code := none }

/-- The timeout rejection of `provideTypeDefinition`
(`goTypeDefinition.ts` line 138). -/
def guruTimeoutRej : RejVal :=
  { message := "Timeout executing tool - guru", code := none }

/-! ## `goOutline.ts` — `convertToCodeSymbols` (lines 150–203)

The `vscode.TextDocument` collaborator is abstracted to the operations the
function uses: `positionAt`, the text of a line and the end position of a
line's range.  Byte offsets may go negative in JavaScript
(`decl.start - 1`), so the converter takes an `Int`. -/

structure Position where
  line : Nat
  character : Nat
  deriving DecidableEq, Repr

structure RangeM where
  start : Position
  stop : Position
  deriving DecidableEq, Repr

structure DocModel where
  positionAt : Int → Position
  lineText : Nat → String
  lineEndPos : Nat → Position

inductive SymbolKind where
  | package : SymbolKind
  | namespace_ : SymbolKind
  | variable_ : SymbolKind
  | constant_ : SymbolKind
  | typeParameter : SymbolKind
  | function_ : SymbolKind
  | struct : SymbolKind
  | interface_ : SymbolKind
  deriving DecidableEq, Repr

/-- The `goKindToCodeKind` lookup table (`goOutline.ts` lines 139–148);
`none` models the `undefined` of a missing key. -/
def goKindToCodeKind : String → Option SymbolKind
  | "package" => some SymbolKind.package
  | "import" => some SymbolKind.namespace_
  | "variable" => some SymbolKind.variable_
  | "constant" => some SymbolKind.constant_
  | "type" => some SymbolKind.typeParameter
  | "function" => some SymbolKind.function_
  | "struct" => some SymbolKind.struct
  | "interface" => some SymbolKind.interface_
  | _ => none

/-- `GoOutlineDeclaration` (`goOutline.ts` lines 27–37); absent `children`
is modelled as `[]` (its only consumer converts `null` and `[]` alike to no
child symbols).  `type'` embeds the `type` field. -/
inductive GoOutlineDeclaration where
  | mk (label : String) (type' : String) (receiverType : Option String)
       (start : Int) (stop : Int) (children : List GoOutlineDeclaration)

def GoOutlineDeclaration.label : GoOutlineDeclaration → String
  | GoOutlineDeclaration.mk l _ _ _ _ _ => l

def GoOutlineDeclaration.type' : GoOutlineDeclaration → String
  | GoOutlineDeclaration.mk _ t _ _ _ _ => t

def GoOutlineDeclaration.receiverType : GoOutlineDeclaration → Option String
  | GoOutlineDeclaration.mk _ _ r _ _ _ => r

def GoOutlineDeclaration.start : GoOutlineDeclaration → Int
  | GoOutlineDeclaration.mk _ _ _ s _ _ => s

def GoOutlineDeclaration.stop : GoOutlineDeclaration → Int
  | GoOutlineDeclaration.mk _ _ _ _ e _ => e

def GoOutlineDeclaration.children : GoOutlineDeclaration → List GoOutlineDeclaration
  | GoOutlineDeclaration.mk _ _ _ _ _ cs => cs

/-- `vscode.DocumentSymbol` restricted to the fields the source sets. -/
inductive DocumentSymbol where
  | mk (name : String) (detail : String) (kind : Option SymbolKind)
       (range : RangeM) (selectionRange : RangeM)
       (children : List DocumentSymbol)

def DocumentSymbol.name : DocumentSymbol → String
  | DocumentSymbol.mk n _ _ _ _ _ => n

def DocumentSymbol.detail : DocumentSymbol → String
  | DocumentSymbol.mk _ d _ _ _ _ => d

def DocumentSymbol.children : DocumentSymbol → List DocumentSymbol
  | DocumentSymbol.mk _ _ _ _ _ cs => cs

/-- JavaScript `\s` (ASCII part). -/
def isJsWs (c : Char) : Bool :=
  c = ' ' ∨ c = '\t' ∨ c = '\n' ∨ c = '\r' ∨ c = Char.ofNat 11 ∨ c = Char.ofNat 12

/-- JavaScript word character (for `\b`). -/
def isWordChar (c : Char) : Bool :=
  c.isAlphanum ∨ c = '_'

/-- Model of `new RegExp('^\\s*type\\s+' + label + '\\s+' + keyword + '\\b').test(line)`
(`goOutline.ts` lines 179–181), with the interpolated label treated as a
literal string (regex metacharacters inside labels are not modelled). -/
def matchTypeKeywordDecl (keyword label line : String) : Bool :=
  let cs := line.data.dropWhile isJsWs
  match stripPfxCL "type".data cs with
  | none => false
  | some cs1 =>
    if (cs1.takeWhile isJsWs).isEmpty then false
    else
      let cs2 := cs1.dropWhile isJsWs
      match stripPfxCL label.data cs2 with
      | none => false
      | some cs3 =>
        if (cs3.takeWhile isJsWs).isEmpty then false
        else
          let cs4 := cs3.dropWhile isJsWs
          match stripPfxCL keyword.data cs4 with
          | none => false
          | some cs5 =>
            match cs5 with
            | [] => true
            | c :: _ => ¬ isWordChar c

mutual

/-- The symbol built for one kept declaration (`goOutline.ts` lines
165–200).  JavaScript truthiness: `decl.receiverType ? ... : ...` treats an
*empty* `receiverType` like an absent one. -/
def convertDecl (doc : DocModel) (includeImports : Bool)
    (byteOffsetToDocumentOffset : Int → Int) :
    GoOutlineDeclaration → DocumentSymbol
  | GoOutlineDeclaration.mk declLabel declType0 declRecv declStart declStop declChildren =>
    let label :=
      match declRecv with
      | some r => if r = "" then declLabel else "(" ++ r ++ ")." ++ declLabel
      | none => declLabel
    let start := byteOffsetToDocumentOffset (declStart - 1)
    let stop := byteOffsetToDocumentOffset (declStop - 1)
    let startPosition := doc.positionAt start
    let endPosition := doc.positionAt stop
    let symbolRange : RangeM := { start := startPosition, stop := endPosition }
    let selectionRange : RangeM :=
      if startPosition.line = endPosition.line then symbolRange
      else { start := startPosition, stop := doc.lineEndPos startPosition.line }
    let declType :=
      if declType0 = "type" then
        let lineStr := doc.lineText (doc.positionAt start).line
        if matchTypeKeywordDecl "struct" declLabel lineStr then "struct"
        else if matchTypeKeywordDecl "interface" declLabel lineStr then "interface"
        else "type"
      else declType0
    DocumentSymbol.mk label declType (goKindToCodeKind declType)
      symbolRange selectionRange
      (convertListDecls doc includeImports byteOffsetToDocumentOffset declChildren)

/-- The `forEach` loop of `convertToCodeSymbols` with its two early
returns (`goOutline.ts` lines 157–163). -/
def convertListDecls (doc : DocModel) (includeImports : Bool)
    (byteOffsetToDocumentOffset : Int → Int) :
    List GoOutlineDeclaration → List DocumentSymbol
  | [] => []
  | d :: ds =>
    (if ¬ includeImports ∧ d.type' = "import" then []
     else if d.label = "_" ∧ d.type' = "variable" then []
     else [convertDecl doc includeImports byteOffsetToDocumentOffset d])
      ++ convertListDecls doc includeImports byteOffsetToDocumentOffset ds

end

/-- `convertToCodeSymbols` (`goOutline.ts` lines 150–203): `decls || []`
defaults a `null` declaration list. -/
def convertToCodeSymbols (doc : DocModel) (decls : Option (List GoOutlineDeclaration))
    (includeImports : Bool) (byteOffsetToDocumentOffset : Int → Int) :
    List DocumentSymbol :=
  convertListDecls doc includeImports byteOffsetToDocumentOffset (decls.getD [])

/-- The two skip conditions of the loop, combined: a declaration is kept
iff neither early `return` fires. -/
def keepDecl (includeImports : Bool) (d : GoOutlineDeclaration) : Bool :=
  ¬ ((¬ includeImports ∧ d.type' = "import") ∨ (d.label = "_" ∧ d.type' = "variable"))

/-! ## `goTest.ts` — the `lastTestConfig` discipline (lines 15–221)

The collaborators from `testUtils.ts` (not under `src/`) are taken as
abstract inputs of the environment: `getTestFunctions` /
`getBenchmarkFunctions` results, `getTestFlags` result,
`extractInstanceTestName` and `findAllTestSuiteRuns` results.  Each command
is embedded as a function from its environment to the ordered list of
primitive actions it performs on the test machinery: storing into
`lastTestConfig` and invoking `goTest`. -/

/-- `TestConfig` restricted to the fields the commands construct;
`goConfig` is an opaque identifier. -/
structure TestConfig where
  goConfig : Nat
  dir : String
  flags : List String
  functions : Option (List String)
  isBenchmark : Option Bool
  includeSubDirectories : Option Bool
  deriving DecidableEq, Repr

/-- The two primitive effects: `lastTestConfig = c` and `goTest(c)`. -/
inductive TestAction where
  | store (c : TestConfig) : TestAction
  | run (c : TestConfig) : TestAction
  deriving DecidableEq, Repr

/-- Lexicographic order on positions, as `vscode.Position` compares. -/
def posLe (a b : Position) : Bool :=
  a.line < b.line ∨ (a.line = b.line ∧ a.character ≤ b.character)

/-- Model of `vscode.Range.contains` for a position. -/
def rangeContains (r : RangeM) (p : Position) : Bool :=
  posLe r.start p ∧ posLe p r.stop

/-- A test or benchmark function symbol (name and location range). -/
structure TestFunc where
  name : String
  range : RangeM
  deriving DecidableEq, Repr

/-- The active editor, reduced to what the commands read: the file name and
the start of the selection (`none` models a falsy selection). -/
structure Editor where
  fileName : String
  selection : Option Position
  deriving DecidableEq, Repr

/-- Model of the platform `path.dirname` (POSIX form, as far as the simple
paths of this development need). -/
def dirname (s : String) : String :=
  match s.data.reverse.dropWhile (fun c => c ≠ '/') with
  | [] => "."
  | _ :: rest => if rest = [] then "/" else String.mk rest.reverse

/-- Environment of one command invocation.  The `testUtils.ts` collaborators
appear as already-evaluated results. -/
structure TestEnv where
  goConfigId : Nat
  editor : Option Editor
  testFunctions : List TestFunc
  benchFunctions : List TestFunc
  argsFunctionName : Option String
  getTestFlagsResult : List String
  coverOnSingleTest : Bool
  coverOnTestPackage : Bool
  tmpCoverPath : String
  extractInstance : String → Option String
  suiteRuns : Option (List TestFunc)
  workspaceDir : Option String

/-- `makeCoverData` (`goTest.ts` lines 212–221), returning the augmented
flag list (the cover path itself only feeds the coverage display). -/
def makeCoverData (coverFlagOn : Bool) (tmpPath : String) (flags : List String) :
    List String :=
  if coverFlagOn then flags ++ ["-coverprofile=" ++ tmpPath] else flags

/-- `testAtCursor` (`goTest.ts` lines 25–93). -/
def testAtCursor (env : TestEnv) (isBenchmark : Bool) : List TestAction :=
  match env.editor with
  | none => []
  | some editor =>
    if ¬ strEndsWith editor.fileName "_test.go" then []
    else
      let getFunctionsResult :=
        if isBenchmark then env.benchFunctions else env.testFunctions
      let testFlags :=
        makeCoverData env.coverOnSingleTest env.tmpCoverPath env.getTestFlagsResult
      let testFunctionName : Option String :=
        match env.argsFunctionName with
        | some n => some n
        | none =>
          (getFunctionsResult.find? (fun f =>
            match editor.selection with
            | some p => rangeContains f.range p
            | none => false)).map TestFunc.name
      match testFunctionName with
      | none => []
      | some name =>
        let testConfigFns :=
          if ¬ isBenchmark ∧ (env.extractInstance name).isSome then
            match env.suiteRuns with
            | some fns => [name] ++ fns.map TestFunc.name
            | none => [name]
          else [name]
        let testConfig : TestConfig :=
          { goConfig := env.goConfigId, dir := dirname editor.fileName,
            flags := testFlags, functions := some testConfigFns,
            isBenchmark := some isBenchmark, includeSubDirectories := none }
        [TestAction.store testConfig, TestAction.run testConfig]

/-- `testCurrentPackage` (`goTest.ts` lines 100–125). -/
def testCurrentPackage (env : TestEnv) (isBenchmark : Bool) : List TestAction :=
  match env.editor with
  | none => []
  | some editor =>
    let testFlags :=
      makeCoverData env.coverOnTestPackage env.tmpCoverPath env.getTestFlagsResult
    let testConfig : TestConfig :=
      { goConfig := env.goConfigId, dir := dirname editor.fileName,
        flags := testFlags, functions := none,
        isBenchmark := some isBenchmark, includeSubDirectories := none }
    [TestAction.store testConfig, TestAction.run testConfig]

/-- `testWorkspace` (`goTest.ts` lines 132–153); `workspaceDir` is the
resolved workspace folder (or root path). -/
def testWorkspace (env : TestEnv) : List TestAction :=
  match env.workspaceDir with
  | none => []
  | some dir =>
    let testConfig : TestConfig :=
      { goConfig := env.goConfigId, dir := dir,
        flags := env.getTestFlagsResult, functions := none,
        isBenchmark := none, includeSubDirectories := some true }
    [TestAction.store testConfig, TestAction.run testConfig]

/-- `testCurrentFile` (`goTest.ts` lines 161–192). -/
def testCurrentFile (env : TestEnv) (isBenchmark : Bool) : List TestAction :=
  match env.editor with
  | none => []
  | some editor =>
    if ¬ strEndsWith editor.fileName "_test.go" then []
    else
      let fns := if isBenchmark then env.benchFunctions else env.testFunctions
      let testConfig : TestConfig :=
        { goConfig := env.goConfigId, dir := dirname editor.fileName,
          flags := env.getTestFlagsResult,
          functions := some (fns.map TestFunc.name),
          isBenchmark := some isBenchmark, includeSubDirectories := none }
      [TestAction.store testConfig, TestAction.run testConfig]

/-- `testPrevious` (`goTest.ts` lines 197–205): with no stored config it
shows a message and runs nothing; otherwise it passes the stored config to
`goTest` unchanged and stores nothing. -/
def testPrevious (lastTestConfig : Option TestConfig) : List TestAction :=
  match lastTestConfig with
  | none => []
  | some c => [TestAction.run c]

/-- Effect of one action on the module-level `lastTestConfig`. -/
def applyTestAction (last : Option TestConfig) : TestAction → Option TestConfig
  | TestAction.store c => some c
  | TestAction.run _ => last

/-- `lastTestConfig` after a sequence of actions. -/
def replayLast (init : Option TestConfig) (acts : List TestAction) : Option TestConfig :=
  acts.foldl applyTestAction init

/-! ## Supporting definitions for the claims -/

/-- The callback data observed after `killTree` terminates the process:
`execFile` reports an error for the killed process, with empty output. -/
def killedOutcome : ExecOutcome :=
  { err := some { code := none, message := "Command failed: killed" },
    stdout := "", stderr := "" }

/-- The argument lists of the `execFile` spawns recorded in a trace. -/
def execArgsOf (t : List TraceEv) : List (List String) :=
  t.filterMap (fun ev => match ev with
    | TraceEv.exec a => some a
    | _ => none)

/-- The failure taxonomy of the specification (spec section 7), restricted
to the classes the `getWorkspaceSymbols` catch block distinguishes. -/
inductive FailureClass where
  | notFound : FailureClass
  | unsupportedFlag : FailureClass
  | generic : FailureClass
  deriving DecidableEq, Repr

/-- The classification performed by the catch block of `getWorkspaceSymbols`
(`goSymbol.ts` lines 109–117): `err.code === 'ENOENT'` is the missing-tool
class, a message starting with the `-ignore` sentinel is the
unsupported-flag class, anything else is generic. -/
def classifyGoSymbolsFailure (e : RejVal) : FailureClass :=
  if e.code = some "ENOENT" then FailureClass.notFound
  else if strStartsWith e.message flagIgnoreMsg then FailureClass.unsupportedFlag
  else FailureClass.generic

/-- The stderr text a `go-symbols` binary without the `-ignore` flag
produces. -/
def flagIgnoreStderr : String :=
  "flag provided but not defined: -ignore\nUsage of go-symbols:"

/-- A tool that rejects every argument list with the `-ignore` flag error —
the adversarial case for the one-shot-downgrade claim. -/
def oracleAlwaysFlag : Oracle := fun _ =>
  { err := some { code := none, message := "exit status 2" },
    stdout := "", stderr := flagIgnoreStderr }

/-- A tool that rejects the `-ignore` flag when (and only when) it is
passed, and otherwise succeeds with an empty declaration list. -/
def oracleFlagOnce : Oracle := fun args =>
  if args.contains "-ignore" then
    { err := some { code := none, message := "exit status 2" },
      stdout := "", stderr := flagIgnoreStderr }
  else { err := none, stdout := "[]", stderr := "" }

/-- A tool whose process fails with a non-sentinel error and non-empty
stderr. -/
def oracleGenericFail : Oracle := fun _ =>
  { err := some { code := none, message := "Command failed: go-outline" },
    stdout := "", stderr := "go-outline: some real failure" }

/-- A missing binary: `execFile` reports `ENOENT` and nothing ran. -/
def oracleEnoent : Oracle := fun _ =>
  { err := some { code := some "ENOENT", message := "spawn go-symbols ENOENT" },
    stdout := "", stderr := "" }

/-- A tool that exits successfully but emits malformed JSON. -/
def oracleBadJson : Oracle := fun _ =>
  { err := none, stdout := "not json", stderr := "" }

/-- Outline options whose flag list is exactly `['-f', 'sample.go']`. -/
def optsSample : GoOutlineOptionsM :=
  { fileName := "sample.go", importsOption := GoOutlineImportsOptions.exclude,
    docPresent := false }

/-- The stdout of the C8 scenario. -/
def jsonC8 : String := "\x7b\"name\":\"Foo\"\x7d"

/-- The C8 scenario tool: on `['-f', 'sample.go']` it succeeds with stdout
`jsonC8`; any other argument list fails. -/
def oracleC8 : Oracle := fun args =>
  if args = ["-f", "sample.go"] then
    { err := none, stdout := jsonC8, stderr := "" }
  else
    { err := some { code := none, message := "unexpected invocation" },
      stdout := "", stderr := "" }

/-- A document model with constant answers, for closed counterexamples. -/
def docTrivial : DocModel :=
  { positionAt := fun _ => { line := 0, character := 0 },
    lineText := fun _ => "",
    lineEndPos := fun _ => { line := 0, character := 0 } }

/-- A declaration whose `receiverType` is present but the empty string. -/
def declEmptyRecv : GoOutlineDeclaration :=
  GoOutlineDeclaration.mk "Foo" "function" (some "") 1 10 []

/-- The action shape every test-running command produces: either nothing
(an early return) or a store of the constructed configuration immediately
followed by the run of that same configuration, leaving `lastTestConfig`
holding it. -/
def storesThenRuns (acts : List TestAction) : Prop :=
  acts = [] ∨ ∃ c : TestConfig,
    acts = [TestAction.store c, TestAction.run c]
    ∧ ∀ init : Option TestConfig, replayLast init acts = some c

/-! ## Invariants of the invocation machine -/

theorem step_settled_some (onExit : ExecOutcome → ExitAction) (tr : RejVal)
    (s : MachState) (e : Ev) (v : SettleVal) (h : s.settled = some v) :
    (step onExit tr s e).settled = some v := by
  cases e with
  | exit o =>
    simp only [step]
    cases onExit o with
    | res w => simp [trySettle, h]
    | rej r => simp [trySettle, h]
    | throwUncaught => simpa using h
    | retryDefer => simpa using h
  | timerFire =>
    simp only [step]
    by_cases ht : s.timerActive
    · simp [ht, trySettle, h]
    · simpa [ht] using h
  | cancelFire => simpa [step] using h

theorem foldl_settled_some (onExit : ExecOutcome → ExitAction) (tr : RejVal)
    (v : SettleVal) :
    ∀ (evs : List Ev) (s : MachState), s.settled = some v →
      (evs.foldl (step onExit tr) s).settled = some v := by
  intro evs
  induction evs with
  | nil => intro s h; simpa using h
  | cons e rest ih =>
    intro s h
    simp only [List.foldl_cons]
    exact ih _ (step_settled_some onExit tr s e v h)

theorem step_deadTree (onExit : ExecOutcome → ExitAction) (tr : RejVal)
    (s : MachState) (e : Ev) (h : s.procTreeAlive = false) :
    (step onExit tr s e).procTreeAlive = false := by
  cases e with
  | exit o =>
    simp only [step]
    cases onExit o with
    | res w => simp [trySettle, h]; split <;> rfl
    | rej r => simp [trySettle, h]; split <;> rfl
    | throwUncaught => simpa using h
    | retryDefer => simpa using h
  | timerFire =>
    simp only [step]
    by_cases ht : s.timerActive
    · simp [ht, trySettle]; split <;> rfl
    · simpa [ht] using h
  | cancelFire => simp [step]

theorem foldl_deadTree (onExit : ExecOutcome → ExitAction) (tr : RejVal) :
    ∀ (evs : List Ev) (s : MachState), s.procTreeAlive = false →
      (evs.foldl (step onExit tr) s).procTreeAlive = false := by
  intro evs
  induction evs with
  | nil => intro s h; simpa using h
  | cons e rest ih =>
    intro s h
    simp only [List.foldl_cons]
    exact ih _ (step_deadTree onExit tr s e h)

theorem step_killCount_le (onExit : ExecOutcome → ExitAction) (tr : RejVal)
    (s : MachState) (e : Ev) :
    s.killCount ≤ (step onExit tr s e).killCount := by
  cases e with
  | exit o =>
    simp only [step]
    cases onExit o with
    | res w => simp [trySettle]; split <;> simp
    | rej r => simp [trySettle]; split <;> simp
    | throwUncaught => simp
    | retryDefer => simp
  | timerFire =>
    simp only [step]
    by_cases ht : s.timerActive
    · simp [ht, trySettle]; split <;> simp
    · simp [ht]
  | cancelFire => simp [step]

theorem foldl_killCount_le (onExit : ExecOutcome → ExitAction) (tr : RejVal) :
    ∀ (evs : List Ev) (s : MachState),
      s.killCount ≤ (evs.foldl (step onExit tr) s).killCount := by
  intro evs
  induction evs with
  | nil => intro s; simp
  | cons e rest ih =>
    intro s
    simp only [List.foldl_cons]
    exact le_trans (step_killCount_le onExit tr s e) (ih _)

/-- Once the timer is cleared without having fired, it never fires. -/
theorem step_timer_cleared (onExit : ExecOutcome → ExitAction) (tr : RejVal)
    (s : MachState) (e : Ev)
    (ha : s.timerActive = false) (hf : s.timerFired = false) :
    (step onExit tr s e).timerActive = false ∧ (step onExit tr s e).timerFired = false := by
  cases e with
  | exit o =>
    simp only [step]
    cases onExit o with
    | res w => simp [trySettle]; split <;> simp [ha, hf]
    | rej r => simp [trySettle]; split <;> simp [ha, hf]
    | throwUncaught => simp [ha, hf]
    | retryDefer => simp [ha, hf]
  | timerFire => simp [step, ha, hf]
  | cancelFire => simp [step, hf]

theorem foldl_timer_cleared (onExit : ExecOutcome → ExitAction) (tr : RejVal) :
    ∀ (evs : List Ev) (s : MachState),
      s.timerActive = false → s.timerFired = false →
      (evs.foldl (step onExit tr) s).timerFired = false := by
  intro evs
  induction evs with
  | nil => intro s _ hf; simpa using hf
  | cons e rest ih =>
    intro s ha hf
    simp only [List.foldl_cons]
    have h := step_timer_cleared onExit tr s e ha hf
    exact ih _ h.1 h.2

/-! ## Claim C3: timeout -/

/-- C3: for any invocation whose external process does not exit within the
configured timeout — i.e. whose timer fires first, whatever events follow —
the invocation settles with exactly the timeout rejection (the later exit of
the killed process cannot re-settle it), and the process tree is tree-killed.
Stated for every exit handler and timeout rejection, so it covers
`callGoSymbols` (`goSymbol.ts` 149–152), `runGoOutline` (`goOutline.ts`
132–135) and `provideTypeDefinition` (`goTypeDefinition.ts` 136–139), whose
timer handlers are all `killTree(p.pid); reject(timeout error)`. -/
theorem C3_timeout_settles_and_tree_killed
    (onExit : ExecOutcome → ExitAction) (timeoutRej : RejVal) (rest : List Ev) :
    (runMach onExit timeoutRej (Ev.timerFire :: rest)).settled
        = some (SettleVal.rej timeoutRej)
    ∧ (runMach onExit timeoutRej (Ev.timerFire :: rest)).procTreeAlive = false
    ∧ 1 ≤ (runMach onExit timeoutRej (Ev.timerFire :: rest)).killCount := by
  have hfirst :
      step onExit timeoutRej MachState.init Ev.timerFire
        = { settled := some (SettleVal.rej timeoutRej), timerActive := false,
            timerFired := true, killCount := 1, procTreeAlive := false,
            uncaught := false } := by
    simp [step, MachState.init, trySettle]
  refine ⟨?_, ?_, ?_⟩
  · show (List.foldl (step onExit timeoutRej)
      (step onExit timeoutRej MachState.init Ev.timerFire) rest).settled = _
    rw [hfirst]
    exact foldl_settled_some onExit timeoutRej _ rest _ rfl
  · show (List.foldl (step onExit timeoutRej)
      (step onExit timeoutRej MachState.init Ev.timerFire) rest).procTreeAlive = false
    rw [hfirst]
    exact foldl_deadTree onExit timeoutRej rest _ rfl
  · show 1 ≤ (List.foldl (step onExit timeoutRej)
      (step onExit timeoutRej MachState.init Ev.timerFire) rest).killCount
    rw [hfirst]
    exact foldl_killCount_le onExit timeoutRej rest
      { settled := some (SettleVal.rej timeoutRej), timerActive := false,
        timerFired := true, killCount := 1, procTreeAlive := false,
        uncaught := false }

/-! ## Claim C4: cancellation

The cancellation listeners (`goSymbol.ts` 124–129, `goOutline.ts` 92–97,
`goTypeDefinition.ts` 140–143) run `clearTimeout(processTimeout);
killTree(p.pid);` and nothing else: no `Cancelled` settlement exists
anywhere in the sources.  The invocation settles only when the killed
process's `execFile` callback fires. -/

/-- C4 counterexample: the cancellation signal fires before process exit,
and the invocation is *not* settled at all at that point — the cancellation
handler of `callGoSymbols` performs no `resolve`/`reject`, so no
`Cancelled` outcome is ever produced (the machine's settlement values are
only those of the exit and timer handlers).  The tree-kill and the timer
clearing do happen. -/
theorem C4_counterexample :
    (runMach goSymbolExit goSymbolTimeoutRej [Ev.cancelFire]).settled = none
    ∧ (runMach goSymbolExit goSymbolTimeoutRej [Ev.cancelFire]).killCount = 1
    ∧ (runMach goSymbolExit goSymbolTimeoutRej [Ev.cancelFire]).timerActive = false := by
  exact ⟨rfl, rfl, rfl⟩

/-- C4 amended: when the cancellation signal fires before process exit, the
timer is cleared — it never fires afterwards, so no spurious timeout — and
the process tree is killed; but the invocation does not settle with a
`Cancelled` outcome: it settles only through the exit callback of the killed
process, which in `callGoSymbols` rejects with the kill error and in
`runGoOutline` resolves `null`. -/
theorem C4_cancel_kills_clears_timer_settles_via_exit
    (onExit : ExecOutcome → ExitAction) (timeoutRej : RejVal) (rest : List Ev) :
    ((runMach onExit timeoutRej (Ev.cancelFire :: rest)).timerFired = false
      ∧ (runMach onExit timeoutRej (Ev.cancelFire :: rest)).procTreeAlive = false
      ∧ 1 ≤ (runMach onExit timeoutRej (Ev.cancelFire :: rest)).killCount)
    ∧ (runMach goSymbolExit goSymbolTimeoutRej [Ev.cancelFire, Ev.exit killedOutcome]).settled
        = some (SettleVal.rej { message := "Command failed: killed", code := none })
    ∧ (runMach goOutlineExit goOutlineTimeoutRej [Ev.cancelFire, Ev.exit killedOutcome]).settled
        = some (SettleVal.res none) := by
  refine ⟨⟨?_, ?_, ?_⟩, rfl, rfl⟩
  · have hfirst :
        step onExit timeoutRej MachState.init Ev.cancelFire
          = { settled := none, timerActive := false, timerFired := false,
              killCount := 1, procTreeAlive := false, uncaught := false } := by
      simp [step, MachState.init]
    show (List.foldl (step onExit timeoutRej)
      (step onExit timeoutRej MachState.init Ev.cancelFire) rest).timerFired = false
    rw [hfirst]
    exact foldl_timer_cleared onExit timeoutRej rest _ rfl rfl
  · have hfirst :
        step onExit timeoutRej MachState.init Ev.cancelFire
          = { settled := none, timerActive := false, timerFired := false,
              killCount := 1, procTreeAlive := false, uncaught := false } := by
      simp [step, MachState.init]
    show (List.foldl (step onExit timeoutRej)
      (step onExit timeoutRej MachState.init Ev.cancelFire) rest).procTreeAlive = false
    rw [hfirst]
    exact foldl_deadTree onExit timeoutRej rest _ rfl
  · have hfirst :
        step onExit timeoutRej MachState.init Ev.cancelFire
          = { settled := none, timerActive := false, timerFired := false,
              killCount := 1, procTreeAlive := false, uncaught := false } := by
      simp [step, MachState.init]
    show 1 ≤ (List.foldl (step onExit timeoutRej)
      (step onExit timeoutRej MachState.init Ev.cancelFire) rest).killCount
    rw [hfirst]
    exact foldl_killCount_le onExit timeoutRej rest
      { settled := none, timerActive := false, timerFired := false,
        killCount := 1, procTreeAlive := false, uncaught := false }

/-! ## Claim C7: firing both timeout and cancellation -/

/-- C7 counterexample: if the timer fires first and the cancellation signal
fires afterwards, `killTree` is invoked a second time — the cancellation
handler calls `killTree(p.pid)` unconditionally (`goSymbol.ts` line 127),
with no settled-guard — so firing both signals does double-kill. -/
theorem C7_counterexample :
    (runMach goSymbolExit goSymbolTimeoutRej [Ev.timerFire, Ev.cancelFire]).killCount = 2 := by
  rfl

/-- C7 amended: the invocation still settles exactly once — the timeout
rejection set by whichever handler settles first is never overwritten, and
the cancellation handler never settles — and neither firing raises an
error; but the two firings are *not* idempotent as a kill action: with
cancellation first the timer is cleared and exactly one `killTree` happens,
while with timeout first the subsequent cancellation issues a second
`killTree` call. -/
theorem C7_both_signals_single_settle_double_kill
    (onExit : ExecOutcome → ExitAction) (timeoutRej : RejVal) :
    ((runMach onExit timeoutRej [Ev.cancelFire, Ev.timerFire]).killCount = 1
      ∧ (runMach onExit timeoutRej [Ev.cancelFire, Ev.timerFire]).timerFired = false
      ∧ (runMach onExit timeoutRej [Ev.cancelFire, Ev.timerFire]).settled = none)
    ∧ ((runMach onExit timeoutRej [Ev.timerFire, Ev.cancelFire]).killCount = 2
      ∧ (runMach onExit timeoutRej [Ev.timerFire, Ev.cancelFire]).settled
          = some (SettleVal.rej timeoutRej))
    ∧ (∀ rest : List Ev,
        (runMach onExit timeoutRej (Ev.timerFire :: Ev.cancelFire :: rest)).settled
          = some (SettleVal.rej timeoutRej)) := by
  refine ⟨⟨?_, ?_, ?_⟩, ⟨?_, ?_⟩, ?_⟩
  · simp [runMach, step, MachState.init, trySettle]
  · simp [runMach, step, MachState.init, trySettle]
  · simp [runMach, step, MachState.init, trySettle]
  · simp [runMach, step, MachState.init, trySettle]
  · simp [runMach, step, MachState.init, trySettle]
  · intro rest
    have hpre :
        List.foldl (step onExit timeoutRej) MachState.init [Ev.timerFire, Ev.cancelFire]
          = { settled := some (SettleVal.rej timeoutRej), timerActive := false,
              timerFired := true, killCount := 2, procTreeAlive := false,
              uncaught := false } := by
      simp [step, MachState.init, trySettle]
    show (List.foldl (step onExit timeoutRej)
        (List.foldl (step onExit timeoutRej) MachState.init [Ev.timerFire, Ev.cancelFire])
        rest).settled = some (SettleVal.rej timeoutRej)
    rw [hpre]
    exact foldl_settled_some onExit timeoutRej _ rest _ rfl

/-! ## Claim C5: missing binary (ENOENT) -/

/-- C5: when the spawn fails with an executable-not-found OS error, the
failure is classified as NotFound by the catch block, the caller-facing
install prompt (`promptForMissingTool`) is signalled, and no `killTree` is
attempted — the exit callback only clears the timer and rejects. -/
theorem C5_enoent_not_found_no_kill (fuel : Nat) (oracle : Oracle)
    (goroot ws q : String) (e : ExecError)
    (hcode : e.code = some "ENOENT")
    (hmsg : strStartsWith e.message flagIgnoreMsg = false)
    (horacle : oracle [ws, q] = { err := some e, stdout := "", stderr := "" }) :
    classifyGoSymbolsFailure (RejVal.ofErr e) = FailureClass.notFound
    ∧ getWorkspaceSymbols (fuel + 1) oracle goroot
        { ignoreFolders := [], includeGoroot := false } ws q true
        = (GWSResult.value none,
           [TraceEv.exec [ws, q], TraceEv.promptMissing "go-symbols"])
    ∧ (runMach goSymbolExit goSymbolTimeoutRej
        [Ev.exit { err := some e, stdout := "", stderr := "" }]).killCount = 0
    ∧ (runMach goSymbolExit goSymbolTimeoutRej
        [Ev.exit { err := some e, stdout := "", stderr := "" }]).settled
        = some (SettleVal.rej (RejVal.ofErr e)) := by
  refine ⟨?_, ?_, ?_, ?_⟩
  · simp [classifyGoSymbolsFailure, RejVal.ofErr, hcode]
  · simp [getWorkspaceSymbols, callGoSymbols, horacle, RejVal.ofErr, hcode, hmsg,
      anyRaised, firstRejection, jsConcat, resolvedValues]
  · simp [runMach, step, goSymbolExit, trySettle, MachState.init]
  · simp [runMach, step, goSymbolExit, trySettle, MachState.init]

/-- C5 witness: the theorem at a concrete missing-binary oracle. -/
theorem C5_witness :
    classifyGoSymbolsFailure
        (RejVal.ofErr { code := some "ENOENT", message := "spawn go-symbols ENOENT" })
      = FailureClass.notFound
    ∧ getWorkspaceSymbols 1 oracleEnoent ""
        { ignoreFolders := [], includeGoroot := false } "/ws" "q" true
        = (GWSResult.value none,
           [TraceEv.exec ["/ws", "q"], TraceEv.promptMissing "go-symbols"])
    ∧ (runMach goSymbolExit goSymbolTimeoutRej
        [Ev.exit { err := some { code := some "ENOENT", message := "spawn go-symbols ENOENT" },
                   stdout := "", stderr := "" }]).killCount = 0
    ∧ (runMach goSymbolExit goSymbolTimeoutRej
        [Ev.exit { err := some { code := some "ENOENT", message := "spawn go-symbols ENOENT" },
                   stdout := "", stderr := "" }]).settled
        = some (SettleVal.rej
            (RejVal.ofErr { code := some "ENOENT", message := "spawn go-symbols ENOENT" })) :=
  C5_enoent_not_found_no_kill 0 oracleEnoent "" "/ws" "q"
    { code := some "ENOENT", message := "spawn go-symbols ENOENT" }
    rfl (by decide) rfl

/-! ## Claim C2: generic failures -/

/-- C2 counterexample: a process that fails with non-empty, non-sentinel
stderr does not surface a generic failure carrying the stderr text in
`runGoOutline` — the callback hits `if (err) return resolve(null)`
(`goOutline.ts` lines 119–121), resolving `null` and discarding the stderr
text entirely. -/
theorem C2_counterexample :
    (runGoOutline 1 oracleGenericFail optsSample).1 = RGOResult.resolved none
    ∧ RGOResult.resolved none
        ≠ RGOResult.rejected { message := "go-outline: some real failure", code := none } :=
  ⟨rfl, fun h => RGOResult.noConfusion h⟩

/-- C2 amended: on an abnormal exit with non-empty stderr matching no
sentinel, `callGoSymbols` rejects with the original process error object —
typed data, though carrying the error's own message rather than the stderr
text — while `runGoOutline` resolves `null`, discarding the stderr text; in
both files this path settles the promise (no uncaught fault). -/
theorem C2_generic_failure_surfaced_as_data
    (oracle : Oracle) (args : List String) (e : ExecError) (fuel : Nat)
    (opts : GoOutlineOptionsM)
    (he : (oracle args).err = some e)
    (_hstderr : (oracle args).stderr ≠ "")
    (hnotflag1 : strStartsWith (oracle args).stderr flagIgnoreMsg = false)
    (he2 : (oracle (gooutlineFlags opts)).err.isSome = true)
    (hnotflag2 : strStartsWith (oracle (gooutlineFlags opts)).stderr flagNotDefinedMsg = false) :
    (callGoSymbols oracle args).1 = CallResult.rejected (RejVal.ofErr e)
    ∧ (runGoOutline (fuel + 1) oracle opts).1 = RGOResult.resolved none := by
  constructor
  · simp [callGoSymbols, he, hnotflag1]
  · simp [runGoOutline, hnotflag2, he2]

/-- C2 witness: the amended theorem at a concrete failing tool. -/
theorem C2_witness :
    (callGoSymbols oracleGenericFail ["/ws", "q"]).1
      = CallResult.rejected
          (RejVal.ofErr { code := none, message := "Command failed: go-outline" })
    ∧ (runGoOutline 1 oracleGenericFail optsSample).1 = RGOResult.resolved none :=
  C2_generic_failure_surfaced_as_data oracleGenericFail ["/ws", "q"]
    { code := none, message := "Command failed: go-outline" } 0 optsSample
    rfl (by decide) (by decide) rfl (by decide)

/-! ## Claim C6: JSON decode failures -/

/-- C6: on a successful exit with malformed stdout, `runGoOutline` rejects
the decode error as data (its callback body is wrapped in `try`/`catch`,
`goOutline.ts` lines 102–127), but `callGoSymbols` runs `JSON.parse`
*outside* any `try`/`catch` (`goSymbol.ts` lines 145–147): the exception
escapes the `execFile` callback as an uncaught fault and the promise never
settles — contradicting the claim for `goSymbol.ts`. -/
theorem C6_unguarded_parse_raises :
    (callGoSymbols oracleBadJson ["/ws", "q"]).1 = CallResult.raised
    ∧ (runGoOutline 1 oracleBadJson optsSample).1 = RGOResult.rejected jsonSyntaxError
    ∧ parseJson "not json" = none :=
  ⟨rfl, rfl, rfl⟩

/-! ## Claim C8: the decode round-trip scenario -/

/-- C8: invoking with args `['-f', 'sample.go']` against a tool that writes
`{"name":"Foo"}` to stdout and exits 0 settles successfully, and the decoded
value is exactly the value obtained by parsing that JSON text independently.
-/
theorem C8_scenario_roundtrip :
    runGoOutline 1 oracleC8 optsSample
      = (RGOResult.resolved (some (Json.obj [("name", Json.str "Foo")])),
         [TraceEv.exec ["-f", "sample.go"]])
    ∧ parseJson jsonC8 = some (Json.obj [("name", Json.str "Foo")]) :=
  ⟨rfl, rfl⟩

/-! ## Claim C1: the one-shot `-ignore` downgrade -/

theorem execArgsOf_nil : execArgsOf [] = [] := rfl

theorem execArgsOf_append (a b : List TraceEv) :
    execArgsOf (a ++ b) = execArgsOf a ++ execArgsOf b := by
  simp [execArgsOf]

theorem execArgsOf_exec (a : List String) (t : List TraceEv) :
    execArgsOf (TraceEv.exec a :: t) = a :: execArgsOf t := by
  simp [execArgsOf]

theorem execArgsOf_promptMissing (x : String) (t : List TraceEv) :
    execArgsOf (TraceEv.promptMissing x :: t) = execArgsOf t := by
  simp [execArgsOf]

theorem execArgsOf_promptUpdating (x : String) (t : List TraceEv) :
    execArgsOf (TraceEv.promptUpdating x :: t) = execArgsOf t := by
  simp [execArgsOf]

/-- C1 amended: when the first spawn (carrying `-ignore` and its folder
argument) fails with stderr starting with the `-ignore` sentinel, and the
retry does not itself reject with that sentinel, exactly two processes are
spawned: the original one and a single retry with the `-ignore` flag *and
its argument* removed.  (If the retry does reject with the sentinel again,
`getWorkspaceSymbols` recurses once more instead of surfacing a generic
failure — see the counterexample.) -/
theorem C1_one_shot_flag_downgrade (fuel : Nat) (oracle : Oracle)
    (goroot ws q : String) (folders : List String)
    (hfolders : folders ≠ [])
    (h1err : (oracle ["-ignore", joinComma folders, ws, q]).err.isSome = true)
    (h1ne : (oracle ["-ignore", joinComma folders, ws, q]).stderr ≠ "")
    (h1flag : strStartsWith (oracle ["-ignore", joinComma folders, ws, q]).stderr
        flagIgnoreMsg = true)
    (h2flag : (oracle [ws, q]).err.isSome = true →
        strStartsWith (oracle [ws, q]).stderr flagIgnoreMsg = false)
    (h2msg : ∀ e2 : ExecError, (oracle [ws, q]).err = some e2 →
        strStartsWith e2.message flagIgnoreMsg = false) :
    execArgsOf (getWorkspaceSymbols (fuel + 1 + 1) oracle goroot
        { ignoreFolders := folders, includeGoroot := false } ws q true).2
      = [["-ignore", joinComma folders, ws, q], [ws, q]] := by
  rcases he1 : (oracle ["-ignore", joinComma folders, ws, q]).err with _ | e1
  · rw [he1] at h1err; simp at h1err
  · rcases he2 : (oracle [ws, q]).err with _ | e2
    · rcases hp : parseJson (oracle [ws, q]).stdout with _ | v
      · simp [getWorkspaceSymbols, callGoSymbols, he1, h1ne, h1flag, hfolders, he2, hp,
          anyRaised, firstRejection, jsConcat, resolvedValues, execArgsOf_exec,
          execArgsOf_promptUpdating, execArgsOf_append, execArgsOf_nil]
      · simp [getWorkspaceSymbols, callGoSymbols, he1, h1ne, h1flag, hfolders, he2, hp,
          anyRaised, firstRejection, jsConcat, resolvedValues, execArgsOf_exec,
          execArgsOf_promptUpdating, execArgsOf_append, execArgsOf_nil]
    · have hflag2 : strStartsWith (oracle [ws, q]).stderr flagIgnoreMsg = false :=
        h2flag (by rw [he2]; rfl)
      have hmsg2 := h2msg e2 he2
      by_cases hco : e2.code = some "ENOENT"
      · simp [getWorkspaceSymbols, callGoSymbols, he1, h1ne, h1flag, hfolders, he2,
          hflag2, hmsg2, hco, RejVal.ofErr, anyRaised, firstRejection,
          execArgsOf_exec, execArgsOf_promptMissing, execArgsOf_promptUpdating,
          execArgsOf_append, execArgsOf_nil]
      · simp [getWorkspaceSymbols, callGoSymbols, he1, h1ne, h1flag, hfolders, he2,
          hflag2, hmsg2, hco, RejVal.ofErr, anyRaised, firstRejection,
          execArgsOf_exec, execArgsOf_promptMissing, execArgsOf_promptUpdating,
          execArgsOf_append, execArgsOf_nil]

/-- C1 witness: the amended theorem against a tool that rejects `-ignore`
when passed and succeeds otherwise. -/
theorem C1_witness :
    execArgsOf (getWorkspaceSymbols 2 oracleFlagOnce ""
        { ignoreFolders := ["vendor"], includeGoroot := false } "/ws" "q" true).2
      = [["-ignore", "vendor", "/ws", "q"], ["/ws", "q"]] :=
  C1_one_shot_flag_downgrade 0 oracleFlagOnce "" "/ws" "q" ["vendor"]
    (by decide) (by decide) (by decide) (by decide)
    (fun _ => by decide) (fun e2 he2 => nomatch he2)

/-- C1 counterexample: against a tool that rejects the `-ignore` sentinel on
*every* invocation, the code does not stop after one retry and does not
surface a generic failure: within a recursion budget of 3 it spawns three
processes (the original and two retries) and is still retrying (`fuelOut`),
refuting "no further retry is issued" / "surfaced as a generic failure". -/
theorem C1_counterexample :
    execArgsOf (getWorkspaceSymbols 3 oracleAlwaysFlag ""
        { ignoreFolders := ["vendor"], includeGoroot := false } "/ws" "q" true).2
      = [["-ignore", "vendor", "/ws", "q"], ["/ws", "q"], ["/ws", "q"]]
    ∧ (getWorkspaceSymbols 3 oracleAlwaysFlag ""
        { ignoreFolders := ["vendor"], includeGoroot := false } "/ws" "q" true).1
      = GWSResult.fuelOut :=
  ⟨rfl, rfl⟩

/-! ## Claim C9: `convertToCodeSymbols` -/

/-- The loop of `convertToCodeSymbols` emits exactly one symbol per kept
declaration, in order. -/
theorem convertListDecls_eq_filter_map (doc : DocModel) (inc : Bool)
    (conv : Int → Int) (ds : List GoOutlineDeclaration) :
    convertListDecls doc inc conv ds
      = (ds.filter (keepDecl inc)).map (convertDecl doc inc conv) := by
  induction ds with
  | nil => rfl
  | cons d rest ih =>
    rw [List.filter_cons]
    simp only [convertListDecls]
    split
    case isTrue h1 =>
      have hk : keepDecl inc d = false := by
        simp only [keepDecl, decide_eq_false_iff_not, not_not]
        exact Or.inl h1
      rw [hk]
      simp [ih]
    case isFalse h1 =>
      split
      case isTrue h2 =>
        have hk : keepDecl inc d = false := by
          simp only [keepDecl, decide_eq_false_iff_not, not_not]
          exact Or.inr h2
        rw [hk]
        simp [ih]
      case isFalse h2 =>
        have hk : keepDecl inc d = true := by
          simp only [keepDecl, decide_eq_true_eq]
          exact not_or.mpr ⟨h1, h2⟩
        rw [hk]
        simp [ih]

/-- C9 amended: `convertToCodeSymbols` produces exactly one `DocumentSymbol`
per declaration, except that declarations labelled `_` of type `variable`
are always omitted and `import` declarations are omitted when
`includeImports` is false; a declaration with a *non-empty* `receiverType`
gets the label `(receiverType).label` (JavaScript truthiness treats an
empty-string `receiverType` as absent — see the counterexample), and a
declaration without one keeps its own label. -/
theorem C9_shape_and_labels (doc : DocModel) (inc : Bool) (conv : Int → Int)
    (decls : List GoOutlineDeclaration) :
    convertToCodeSymbols doc (some decls) inc conv
      = (decls.filter (keepDecl inc)).map (convertDecl doc inc conv)
    ∧ (∀ (d : GoOutlineDeclaration) (r : String),
        d.receiverType = some r → r ≠ "" →
        (convertDecl doc inc conv d).name = "(" ++ r ++ ")." ++ d.label)
    ∧ (∀ d : GoOutlineDeclaration, d.receiverType = none →
        (convertDecl doc inc conv d).name = d.label) := by
  refine ⟨convertListDecls_eq_filter_map doc inc conv decls, ?_, ?_⟩
  · intro d r hr hne
    cases d with
    | mk l t rc s e cs =>
      cases hr
      simp [convertDecl, DocumentSymbol.name, GoOutlineDeclaration.label, hne]
  · intro d hr
    cases d with
    | mk l t rc s e cs =>
      cases hr
      simp [convertDecl, DocumentSymbol.name, GoOutlineDeclaration.label]

/-- C9 witness: the amended theorem at a small concrete input — one import
declaration (dropped with `includeImports = false`), one `_` variable
(always dropped), and one method with receiver `T` (label `(T).M`). -/
theorem C9_witness :
    convertToCodeSymbols docTrivial
        (some [GoOutlineDeclaration.mk "fmt" "import" none 1 4 [],
               GoOutlineDeclaration.mk "_" "variable" none 5 9 [],
               GoOutlineDeclaration.mk "M" "function" (some "T") 10 20 []])
        false (fun i => i)
      = ([GoOutlineDeclaration.mk "fmt" "import" none 1 4 [],
          GoOutlineDeclaration.mk "_" "variable" none 5 9 [],
          GoOutlineDeclaration.mk "M" "function" (some "T") 10 20 []].filter
            (keepDecl false)).map (convertDecl docTrivial false (fun i => i))
    ∧ (convertDecl docTrivial false (fun i => i)
        (GoOutlineDeclaration.mk "M" "function" (some "T") 10 20 [])).name = "(T).M" := by
  constructor
  · exact (C9_shape_and_labels docTrivial false (fun i => i) _).1
  · exact (C9_shape_and_labels docTrivial false (fun i => i) []).2.1
      (GoOutlineDeclaration.mk "M" "function" (some "T") 10 20 []) "T" rfl (by decide)

/-- C9 counterexample: a declaration *with* a `receiverType` — present but
equal to the empty string — does not get the label `(receiverType).label`:
the JavaScript conditional `decl.receiverType ? ... : ...` is falsy on the
empty string, so the symbol keeps the plain label `Foo` instead of the
`().Foo` the claim mandates. -/
theorem C9_counterexample :
    declEmptyRecv.receiverType = some ""
    ∧ (convertToCodeSymbols docTrivial (some [declEmptyRecv]) true
        (fun i => i)).map DocumentSymbol.name = ["Foo"]
    ∧ ("Foo" : String) ≠ "()." ++ declEmptyRecv.label := by
  refine ⟨rfl, rfl, by decide⟩

/-! ## Claim C10: the `lastTestConfig` discipline -/

/-- C10: every test-running command either returns early having done
nothing, or stores its constructed configuration into `lastTestConfig` and
only then starts the run of exactly that configuration (so the run always
sees `lastTestConfig` holding it); `testPrevious` with no stored
configuration runs nothing, and with a stored configuration re-runs exactly
it, storing nothing (leaving `lastTestConfig` unchanged). -/
theorem C10_lastTestConfig_discipline (env : TestEnv) (isBenchmark : Bool) :
    storesThenRuns (testAtCursor env isBenchmark)
    ∧ storesThenRuns (testCurrentPackage env isBenchmark)
    ∧ storesThenRuns (testWorkspace env)
    ∧ storesThenRuns (testCurrentFile env isBenchmark)
    ∧ testPrevious none = []
    ∧ ∀ c : TestConfig, testPrevious (some c) = [TestAction.run c]
        ∧ replayLast (some c) (testPrevious (some c)) = some c := by
  refine ⟨?_, ?_, ?_, ?_, rfl, fun c => ⟨rfl, rfl⟩⟩
  · unfold storesThenRuns testAtCursor
    dsimp only
    repeat' split
    all_goals
      first
        | exact Or.inl rfl
        | exact Or.inr ⟨_, rfl, fun init => rfl⟩
  · unfold storesThenRuns testCurrentPackage
    dsimp only
    repeat' split
    all_goals
      first
        | exact Or.inl rfl
        | exact Or.inr ⟨_, rfl, fun init => rfl⟩
  · unfold storesThenRuns testWorkspace
    dsimp only
    repeat' split
    all_goals
      first
        | exact Or.inl rfl
        | exact Or.inr ⟨_, rfl, fun init => rfl⟩
  · unfold storesThenRuns testCurrentFile
    dsimp only
    repeat' split
    all_goals
      first
        | exact Or.inl rfl
        | exact Or.inr ⟨_, rfl, fun init => rfl⟩

end VscodeGo
